import Mathlib

/-!
Shallow embedding of `lib/route-table.c` (OVS route-table subsystem):
IPv4 route cache mirrored from the kernel, message decoding, incremental
update, full resync, and longest-prefix-match lookup.

Modelling conventions:
* machine integers are `Nat` with explicit `% 2^32` where wrap-around matters;
  the C `int rta_oif` field is an `Int` obtained by two's-complement
  reinterpretation of the parsed `u32`;
* the `hmap` cache is modelled as a `List route_data`; linear iteration in the
  C (`HMAP_FOR_EACH`) becomes structural recursion over the list, insertion
  appends, removal deletes the node `route_node_lookup` finds;
* the C expression `0xffffffff << (32 - rtm_dst_len)` on `uint32_t` is
  modelled as the mathematical shift truncated to 32 bits, so a prefix length
  of 0 yields mask 0 (the C shift-by-32 is formally undefined behaviour;
  the truncating model makes a zero-length prefix match every address, which
  is the logical reading of a /0 prefix);
* the host is taken to be little-endian, so `nl_attr_get_be32` followed by
  `ntohl` amounts to reading the attribute payload bytes in big-endian order,
  and `nl_attr_get_u32` reads them in little-endian order.
-/

/-! ## Constants from `linux/rtnetlink.h` and `sys/socket.h` -/

def AF_INET : Nat := 2
def RTM_NEWROUTE : Nat := 24
def RTM_DELROUTE : Nat := 25
def RTN_UNICAST : Nat := 1
def RTN_LOCAL : Nat := 2
def RT_SCOPE_NOWHERE : Nat := 255
def RTA_DST : Nat := 1
def RTA_OIF : Nat := 4

/-! ## Byte-order helpers -/

/-- Bytes read in big-endian (network) order, each byte truncated to 8 bits. -/
def be_of_bytes (bs : List Nat) : Nat :=
  bs.foldl (fun acc b => acc * 256 + b % 256) 0

/-- Bytes read in little-endian (host) order, as `nl_attr_get_u32` does on a
little-endian machine. -/
def le_of_bytes (bs : List Nat) : Nat :=
  be_of_bytes bs.reverse

/-- `ntohl`: swap the four bytes of a 32-bit value (little-endian host). -/
def ntohl (x : Nat) : Nat :=
  (x % 256) * 2 ^ 24 + (x / 2 ^ 8 % 256) * 2 ^ 16 +
    (x / 2 ^ 16 % 256) * 2 ^ 8 + x / 2 ^ 24 % 256

/-- Reinterpret a `u32` as a C `int` (two's complement). -/
def int_of_u32 (v : Nat) : Int :=
  if v < 2 ^ 31 then (v : Int) else (v : Int) - 2 ^ 32

/-! ## Data model (`struct route_data`, `struct route_table_msg`) -/

/-- `struct route_data`: the unit of identity and storage in the cache.
`memcmp` equality on the C struct is field equality here (all padding bytes
are zeroed by `xzalloc`/`memset` in the source). -/
structure route_data where
  rtm_dst_len : Nat
  rta_dst : Nat
  rta_oif : Int
deriving DecidableEq

/-- `struct route_table_msg`: a digested kernel route message. -/
structure route_table_msg where
  relevant : Bool
  nlmsg_type : Nat
  rd : route_data
deriving DecidableEq

/-! ## Prefix resolver (`route_node_lookup_by_ip`, `route_table_get_ifindex`) -/

/-- The netmask `0xffffffff << (32 - len)`, truncated to 32 bits. -/
def mask_of (len : Nat) : Nat :=
  (0xffffffff <<< (32 - len)) % 2 ^ 32

/-- The candidate test of the scan in `route_node_lookup_by_ip`: the entry is
not skipped as a default route, and its masked prefix contains `ip`. -/
def lpm_candidate (ip : Nat) (rd : route_data) : Bool :=
  !(rd.rta_dst == 0 && rd.rtm_dst_len == 0) &&
    (Nat.land ip (mask_of rd.rtm_dst_len) ==
      Nat.land rd.rta_dst (mask_of rd.rtm_dst_len))

/-- The loop of `route_node_lookup_by_ip`: `dst_len` is the C `int dst_len`
(initially -1), `best` the C `rn_ret` (initially null). -/
def route_node_lookup_by_ip_go (ip : Nat) :
    List route_data → Int → Option route_data → Option route_data
  | [], _, best => best
  | rd :: rest, dst_len, best =>
    if rd.rta_dst = 0 ∧ rd.rtm_dst_len = 0 then
      route_node_lookup_by_ip_go ip rest dst_len best
    else if dst_len < (rd.rtm_dst_len : Int) ∧
        Nat.land ip (mask_of rd.rtm_dst_len) =
          Nat.land rd.rta_dst (mask_of rd.rtm_dst_len) then
      route_node_lookup_by_ip_go ip rest rd.rtm_dst_len (some rd)
    else
      route_node_lookup_by_ip_go ip rest dst_len best

/-- `route_node_lookup_by_ip`: longest-prefix scan over the whole cache. -/
def route_node_lookup_by_ip (cache : List route_data) (ip : Nat) :
    Option route_data :=
  route_node_lookup_by_ip_go ip cache (-1) none

/-- The fallback scan of `route_table_get_ifindex`: first entry with
`rta_dst == 0 && rtm_dst_len == 0`. -/
def find_default : List route_data → Option route_data
  | [] => none
  | rd :: rest =>
    if rd.rta_dst = 0 ∧ rd.rtm_dst_len = 0 then some rd else find_default rest

/-- `route_table_get_ifindex`: the result pair is (return value, final value
of `*ifindex`); the out-parameter is set to 0 before the lookups. -/
def route_table_get_ifindex (cache : List route_data) (ip_be : Nat) :
    Bool × Int :=
  let ip := ntohl ip_be
  match route_node_lookup_by_ip cache ip with
  | some rn => (true, rn.rta_oif)
  | none =>
    match find_default cache with
    | some rn => (true, rn.rta_oif)
    | none => (false, 0)

/-! ## Message decoder (`route_table_parse`) -/

/-- A netlink attribute: type tag and payload bytes (`struct nlattr`). -/
structure nlattr where
  nla_type : Nat
  payload : List Nat
deriving DecidableEq

/-- A raw rtnetlink route message: the `nlmsghdr` and `rtmsg` fields that
`route_table_parse` reads, followed by the attribute sequence. -/
structure raw_msg where
  nlmsg_type : Nat
  rtm_family : Nat
  rtm_dst_len : Nat
  rtm_scope : Nat
  rtm_type : Nat
  attrs : List nlattr
deriving DecidableEq

/-- Modelled from the spec: the generic attribute-parsing helper
`nl_policy_parse` (`lib/netlink.c`, an out-of-scope collaborator not under
`src/`) instantiated at the fixed policy of `route_table_parse`:
`RTA_DST` optional of type `NL_A_U32`, `RTA_OIF` mandatory of type
`NL_A_U32`.  "Decoding fails if the mandatory attribute is missing or any
attribute fails its declared type/length check"; a `NL_A_U32` attribute must
carry exactly 4 payload bytes; attributes outside the policy are ignored;
a repeated attribute overwrites the earlier occurrence.  This is the loop,
threading the slots for the two policed attributes. -/
def nl_policy_parse_go :
    List nlattr → Option (List Nat) → Option (List Nat) →
      Option (Option (List Nat) × List Nat)
  | [], dst_slot, oif_slot =>
    match oif_slot with
    | some oif => some (dst_slot, oif)
    | none => none
  | a :: rest, dst_slot, oif_slot =>
    if a.nla_type = RTA_DST then
      if a.payload.length = 4 then
        nl_policy_parse_go rest (some a.payload) oif_slot
      else none
    else if a.nla_type = RTA_OIF then
      if a.payload.length = 4 then
        nl_policy_parse_go rest dst_slot (some a.payload)
      else none
    else nl_policy_parse_go rest dst_slot oif_slot

/-- Modelled from the spec: `nl_policy_parse` at `route_table_parse`'s policy.
Returns the `RTA_DST` payload (if present) and the `RTA_OIF` payload. -/
def nl_policy_parse (attrs : List nlattr) :
    Option (Option (List Nat) × List Nat) :=
  nl_policy_parse_go attrs none none

/-- `route_table_parse`: decode a raw buffer into a `route_table_msg`.
`none` is C `false` (no change produced).  The policy parse runs first; then
non-`AF_INET` messages are rejected; `relevant` starts true and is cleared
when the scope is `RT_SCOPE_NOWHERE` or the type is neither unicast nor
local; `rta_dst` defaults to 0 when the optional attribute is absent. -/
def route_table_parse (buf : raw_msg) : Option route_table_msg :=
  match nl_policy_parse buf.attrs with
  | none => none
  | some (dst_slot, oif_payload) =>
    if buf.rtm_family = AF_INET then
      some
        { relevant :=
            !(buf.rtm_scope == RT_SCOPE_NOWHERE) &&
              (buf.rtm_type == RTN_UNICAST || buf.rtm_type == RTN_LOCAL)
          nlmsg_type := buf.nlmsg_type
          rd :=
            { rtm_dst_len := buf.rtm_dst_len
              rta_dst :=
                match dst_slot with
                | some payload => be_of_bytes payload
                | none => 0
              rta_oif := int_of_u32 (le_of_bytes oif_payload) } }
    else none

/-! ## Route cache operations -/

/-- `route_node_lookup`: exact-match (`memcmp`) search of the cache. -/
def route_node_lookup (cache : List route_data) (rd : route_data) :
    Option route_data :=
  cache.find? (fun e => decide (e = rd))

/-- `hmap_remove` of the node `route_node_lookup` found: delete the first
exact match. -/
def route_map_remove : List route_data → route_data → List route_data
  | [], _ => []
  | e :: rest, rd =>
    if e = rd then rest else e :: route_map_remove rest rd

/-- The non-null branches of `route_table_change`: apply one decoded message
to the cache.  Irrelevant messages are ignored; `RTM_NEWROUTE` inserts unless
an exact duplicate exists; `RTM_DELROUTE` removes the matching entry if
present. -/
def route_table_change_apply (change : route_table_msg)
    (cache : List route_data) : List route_data :=
  if change.relevant = false then cache
  else if change.nlmsg_type = RTM_NEWROUTE then
    match route_node_lookup cache change.rd with
    | none => cache ++ [change.rd]
    | some _ => cache
  else if change.nlmsg_type = RTM_DELROUTE then
    match route_node_lookup cache change.rd with
    | some _ => route_map_remove cache change.rd
    | none => cache
  else cache

/-! ## Synchronization controller (`route_table_reset`, `route_table_change`,
registration) -/

/-- Modelled from the spec: the bulk-query transport (collaborator, §6).
`sock_error` is the `nl_sock_create` status (0 = success), `dump_msgs` the
raw buffers the dump yields, `dump_error` the `nl_dump_done` status. -/
structure netlink_env where
  sock_error : Nat
  dump_msgs : List raw_msg
  dump_error : Nat

/-- The body of the `nl_dump_next` loop in `route_table_reset`: decode the
reply, apply it on success, skip it on decode failure. -/
def reset_step (c : List route_data) (buf : raw_msg) : List route_data :=
  match route_table_parse buf with
  | some msg => route_table_change_apply msg c
  | none => c

/-- `route_table_reset`: clear the cache, then create the bulk-query socket
(returning its error with the already-cleared cache on failure), then decode
each dump reply and apply every successful decode; returns the
`nl_dump_done` status and the rebuilt cache. -/
def route_table_reset (env : netlink_env) (_cache : List route_data) :
    Nat × List route_data :=
  if env.sock_error ≠ 0 then (env.sock_error, [])
  else (env.dump_error, env.dump_msgs.foldl reset_step [])

/-- `route_table_change`: a null change message triggers a full resync;
otherwise the incremental apply runs. -/
def route_table_change (env : netlink_env)
    (change : Option route_table_msg) (cache : List route_data) :
    List route_data :=
  match change with
  | none => (route_table_reset env cache).2
  | some c => route_table_change_apply c cache

/-! ## Registration state machine -/

/-- The module's static state: `register_count`, whether the notifier
transport `rtn` exists, and the cache `route_map`. -/
structure route_table_state where
  register_count : Nat
  rtn : Bool
  route_map : List route_data
deriving DecidableEq

/-- The state before any registration: zeroed statics. -/
def initial_state : route_table_state :=
  ⟨0, false, []⟩

/-- `route_table_register`: on the 0 to 1 transition create the transport,
initialise the empty cache and run a full resync; always increment the
reference count.  (The C counter is a 32-bit unsigned int; `Nat` agrees with
it below 2^32 registrations, the only regime the module supports.) -/
def route_table_register (env : netlink_env) (s : route_table_state) :
    route_table_state :=
  if s.register_count = 0 then
    { register_count := 1
      rtn := true
      route_map := (route_table_reset env []).2 }
  else
    { s with register_count := s.register_count + 1 }

/-- `route_table_unregister`: decrement the reference count; on reaching 0
destroy the transport and clear the cache.  (Truncated `Nat` subtraction
agrees with the C unsigned decrement whenever the count is positive, i.e.
whenever register/unregister calls are balanced as the API requires; the C
underflow of an unmatched unregister is outside the model.) -/
def route_table_unregister (s : route_table_state) : route_table_state :=
  let count := s.register_count - 1
  if count = 0 then { register_count := 0, rtn := false, route_map := [] }
  else { s with register_count := count }

/-- The routes a dump delivers to the cache: the `rd` of every reply that
decodes successfully and is relevant. -/
def relevant_decoded (msgs : List raw_msg) : List route_data :=
  msgs.filterMap
    (fun buf =>
      match route_table_parse buf with
      | some m => if m.relevant then some m.rd else none
      | none => none)

/-- The three-entry cache of the longest-prefix example:
10.0.0.0/8 to interface 1, 10.1.0.0/16 to interface 2, default to
interface 3. -/
def demo_cache : List route_data :=
  [⟨8, 0x0a000000, 1⟩, ⟨16, 0x0a010000, 2⟩, ⟨0, 0, 3⟩]

/-! ## Cache lookup lemmas -/

theorem route_node_lookup_eq_none_iff (cache : List route_data)
    (rd : route_data) : route_node_lookup cache rd = none ↔ rd ∉ cache := by
  simp only [route_node_lookup, List.find?_eq_none, decide_eq_true_eq]
  exact ⟨fun h hm => h rd hm rfl, fun h x hx he => h (he ▸ hx)⟩

theorem mem_of_route_node_lookup_some (cache : List route_data)
    (rd x : route_data) (h : route_node_lookup cache rd = some x) :
    rd ∈ cache := by
  have hx : x ∈ cache := List.mem_of_find?_eq_some h
  have hp := List.find?_some h
  simp only [decide_eq_true_eq] at hp
  exact hp ▸ hx

theorem mem_route_table_change_apply_new (m : route_table_msg)
    (acc : List route_data) (hrel : m.relevant = true)
    (hty : m.nlmsg_type = RTM_NEWROUTE) (x : route_data) :
    x ∈ route_table_change_apply m acc ↔ x ∈ acc ∨ x = m.rd := by
  simp only [route_table_change_apply, hrel, hty, if_pos rfl]
  norm_num
  cases hl : route_node_lookup acc m.rd with
  | some y =>
    have hmem : m.rd ∈ acc := mem_of_route_node_lookup_some acc m.rd y hl
    exact ⟨Or.inl, fun h => h.elim id (fun e => e ▸ hmem)⟩
  | none => simp [List.mem_append]

/-! ## C10: failed resolve zeroes the out-parameter -/

/-- C10: whenever `route_table_get_ifindex` returns false (no specific
candidate and no default route), the `ifindex` out-parameter holds 0: it is
zeroed at entry and never left at its previous value. -/
theorem c10_resolve_false_zeroes_ifindex (cache : List route_data)
    (ip_be : Nat) (h : (route_table_get_ifindex cache ip_be).1 = false) :
    (route_table_get_ifindex cache ip_be).2 = 0 := by
  dsimp only [route_table_get_ifindex] at h ⊢
  cases hl : route_node_lookup_by_ip cache (ntohl ip_be) with
  | some rn => simp [hl] at h
  | none =>
    cases hd : find_default cache with
    | some rn => simp [hl, hd] at h
    | none => simp [hl, hd]

theorem c10_resolve_false_zeroes_ifindex_witness :
    (route_table_get_ifindex [] 0).1 = false ∧
      (route_table_get_ifindex [] 0).2 = 0 :=
  ⟨by decide, c10_resolve_false_zeroes_ifindex [] 0 (by decide)⟩

/-! ## C3: resync with unavailable transport -/

/-- C3 counterexample: with a one-entry cache and a transport that cannot be
created (socket error 5), `route_table_reset` does return the nonzero error,
but the cache is left empty — `route_map_clear` runs before the socket is
created — not "exactly as it was before". -/
theorem c3_counterexample :
    (route_table_reset ⟨5, [], 0⟩ [⟨8, 0x0a000000, 1⟩]).1 = 5 ∧
      (route_table_reset ⟨5, [], 0⟩ [⟨8, 0x0a000000, 1⟩]).2 = [] ∧
      (route_table_reset ⟨5, [], 0⟩ [⟨8, 0x0a000000, 1⟩]).2 ≠
        [⟨8, 0x0a000000, 1⟩] := by decide

/-- C3 amended: if the bulk-query transport cannot be created,
`route_table_reset` returns the nonzero socket-creation error and leaves the
cache empty (the cache is cleared unconditionally at the start of the
resync, before the transport is created). -/
theorem c3_reset_transport_failure (env : netlink_env)
    (cache : List route_data) (h : env.sock_error ≠ 0) :
    route_table_reset env cache = (env.sock_error, []) := by
  simp [route_table_reset, h]

theorem c3_reset_transport_failure_witness :
    route_table_reset ⟨5, [], 0⟩ [⟨8, 0x0a000000, 1⟩] = (5, []) :=
  c3_reset_transport_failure ⟨5, [], 0⟩ [⟨8, 0x0a000000, 1⟩] (by decide)

/-! ## C4: resync idempotence -/

/-- C4: running a full resync twice against an unchanged external source
leaves the cache after the second resync identical to the cache after the
first (same entries, same size): `route_table_reset` rebuilds the cache from
the dump alone, independently of the prior cache contents. -/
theorem c4_reset_idempotent (env : netlink_env) (cache : List route_data) :
    (route_table_reset env (route_table_reset env cache).2).2 =
        (route_table_reset env cache).2 ∧
      (route_table_reset env (route_table_reset env cache).2).2.length =
        (route_table_reset env cache).2.length :=
  ⟨rfl, rfl⟩

/-! ## C8: duplicate insertion is a no-op -/

/-- C8: applying a relevant `RTM_NEWROUTE` change whose `route_data` exactly
equals an entry already in the cache leaves the cache unchanged, and
inserting the same `route_data` twice leaves the cache size after the second
insert equal to the size after the first. -/
theorem c8_duplicate_insert_noop (env : netlink_env)
    (change : route_table_msg) (cache : List route_data)
    (hrel : change.relevant = true)
    (hty : change.nlmsg_type = RTM_NEWROUTE) :
    (change.rd ∈ cache →
        route_table_change env (some change) cache = cache) ∧
      (route_table_change env (some change)
          (route_table_change env (some change) cache)).length =
        (route_table_change env (some change) cache).length := by
  have hnoop : ∀ c : List route_data, change.rd ∈ c →
      route_table_change_apply change c = c := by
    intro c hmem
    have hne : route_node_lookup c change.rd ≠ none := fun hl =>
      (route_node_lookup_eq_none_iff c change.rd).mp hl hmem
    simp only [route_table_change_apply, hrel, hty, if_pos rfl]
    norm_num
    cases hl : route_node_lookup c change.rd with
    | some y => rfl
    | none => exact absurd hl hne
  constructor
  · exact fun hmem => hnoop cache hmem
  · show (route_table_change_apply change
        (route_table_change_apply change cache)).length = _
    have hmem1 : change.rd ∈ route_table_change_apply change cache :=
      (mem_route_table_change_apply_new change cache hrel hty change.rd).mpr
        (Or.inr rfl)
    rw [hnoop _ hmem1]
    rfl

theorem c8_duplicate_insert_noop_witness :
    ((⟨8, 0x0a000000, 1⟩ : route_data) ∈ [(⟨8, 0x0a000000, 1⟩ : route_data)] →
        route_table_change ⟨0, [], 0⟩ (some ⟨true, 24, ⟨8, 0x0a000000, 1⟩⟩)
          [⟨8, 0x0a000000, 1⟩] = [⟨8, 0x0a000000, 1⟩]) ∧
      (route_table_change ⟨0, [], 0⟩ (some ⟨true, 24, ⟨8, 0x0a000000, 1⟩⟩)
          (route_table_change ⟨0, [], 0⟩
            (some ⟨true, 24, ⟨8, 0x0a000000, 1⟩⟩)
            [⟨8, 0x0a000000, 1⟩])).length =
        (route_table_change ⟨0, [], 0⟩
            (some ⟨true, 24, ⟨8, 0x0a000000, 1⟩⟩)
            [⟨8, 0x0a000000, 1⟩]).length :=
  c8_duplicate_insert_noop ⟨0, [], 0⟩ ⟨true, 24, ⟨8, 0x0a000000, 1⟩⟩
    [⟨8, 0x0a000000, 1⟩] rfl rfl

/-! ## C5: irrelevant messages decode but do not mutate the cache -/

/-- C5: a structurally well-formed IPv4 message whose scope is
`RT_SCOPE_NOWHERE`, or whose type is neither unicast nor local, decodes
successfully with `relevant = false`, and applying the resulting change
leaves the cache untouched (same contents, hence same size). -/
theorem c5_irrelevant_message_ignored (buf : raw_msg) (env : netlink_env)
    (cache : List route_data)
    (hwf : (nl_policy_parse buf.attrs).isSome = true)
    (hfam : buf.rtm_family = AF_INET)
    (hirr : buf.rtm_scope = RT_SCOPE_NOWHERE ∨
      (buf.rtm_type ≠ RTN_UNICAST ∧ buf.rtm_type ≠ RTN_LOCAL)) :
    ∃ m, route_table_parse buf = some m ∧ m.relevant = false ∧
      route_table_change env (some m) cache = cache ∧
      (route_table_change env (some m) cache).length = cache.length := by
  obtain ⟨res, hres⟩ := Option.isSome_iff_exists.mp hwf
  obtain ⟨dst_slot, oif_payload⟩ := res
  have hrel : (!(buf.rtm_scope == RT_SCOPE_NOWHERE) &&
      (buf.rtm_type == RTN_UNICAST || buf.rtm_type == RTN_LOCAL)) = false := by
    rcases hirr with h | ⟨h1, h2⟩
    · simp [h]
    · simp [h1, h2]
  have hp : ∃ m, route_table_parse buf = some m ∧ m.relevant = false := by
    simp only [route_table_parse, hres]
    rw [if_pos hfam]
    exact ⟨_, rfl, hrel⟩
  obtain ⟨m, hm, hmrel⟩ := hp
  have happ : route_table_change env (some m) cache = cache := by
    show route_table_change_apply m cache = cache
    simp [route_table_change_apply, hmrel]
  exact ⟨m, hm, hmrel, happ, by rw [happ]⟩

theorem c5_irrelevant_message_ignored_witness :
    ∃ m, route_table_parse ⟨24, 2, 8, 255, 1, [⟨4, [7, 0, 0, 0]⟩]⟩ =
        some m ∧ m.relevant = false ∧
      route_table_change ⟨0, [], 0⟩ (some m) demo_cache = demo_cache ∧
      (route_table_change ⟨0, [], 0⟩ (some m) demo_cache).length =
        demo_cache.length :=
  c5_irrelevant_message_ignored ⟨24, 2, 8, 255, 1, [⟨4, [7, 0, 0, 0]⟩]⟩
    ⟨0, [], 0⟩ demo_cache (by decide) rfl (Or.inl rfl)

/-! ## C6: missing mandatory attribute or policy violation fails the decode -/

theorem nl_policy_parse_go_no_oif (l : List nlattr)
    (h : ∀ a ∈ l, a.nla_type ≠ RTA_OIF) :
    ∀ dst_slot : Option (List Nat),
      nl_policy_parse_go l dst_slot none = none := by
  induction l with
  | nil => intro dst_slot; rfl
  | cons a rest ih =>
    intro dst_slot
    have ha : a.nla_type ≠ RTA_OIF := h a (List.mem_cons_self a rest)
    have hrest : ∀ b ∈ rest, b.nla_type ≠ RTA_OIF :=
      fun b hb => h b (List.mem_cons_of_mem a hb)
    by_cases hd : a.nla_type = RTA_DST
    · by_cases hl : a.payload.length = 4
      · simp [nl_policy_parse_go, hd, hl, ih hrest]
      · simp [nl_policy_parse_go, hd, hl]
    · simp [nl_policy_parse_go, hd, ha, ih hrest]

theorem nl_policy_parse_go_bad_attr (l : List nlattr)
    (h : ∃ a ∈ l, (a.nla_type = RTA_DST ∨ a.nla_type = RTA_OIF) ∧
      a.payload.length ≠ 4) :
    ∀ dst_slot oif_slot : Option (List Nat),
      nl_policy_parse_go l dst_slot oif_slot = none := by
  induction l with
  | nil => simp at h
  | cons a rest ih =>
    intro dst_slot oif_slot
    obtain ⟨b, hb, hty, hlen⟩ := h
    rcases List.mem_cons.mp hb with rfl | hbr
    · rcases hty with h1 | h1
      · simp [nl_policy_parse_go, h1, hlen]
      · have hne : b.nla_type ≠ RTA_DST := by
          rw [h1]; decide
        simp [nl_policy_parse_go, h1, hne, hlen]
    · have hrest : ∃ c ∈ rest, (c.nla_type = RTA_DST ∨ c.nla_type = RTA_OIF) ∧
          c.payload.length ≠ 4 := ⟨b, hbr, hty, hlen⟩
      by_cases hd : a.nla_type = RTA_DST
      · by_cases hl : a.payload.length = 4
        · simp [nl_policy_parse_go, hd, hl, ih hrest]
        · simp [nl_policy_parse_go, hd, hl]
      · by_cases ho : a.nla_type = RTA_OIF
        · by_cases hl : a.payload.length = 4
          · simp [nl_policy_parse_go, hd, ho, hl, ih hrest]
          · simp [nl_policy_parse_go, hd, ho, hl]
        · simp [nl_policy_parse_go, hd, ho, ih hrest]

/-- C6: decoding fails (returns nothing) for every buffer that lacks the
mandatory `RTA_OIF` attribute, and for every buffer containing an attribute
that violates the declared policy (a policed `u32` attribute whose payload
is not exactly 4 bytes). -/
theorem c6_decode_fails_without_oif (buf : raw_msg)
    (h : (∀ a ∈ buf.attrs, a.nla_type ≠ RTA_OIF) ∨
      ∃ a ∈ buf.attrs, (a.nla_type = RTA_DST ∨ a.nla_type = RTA_OIF) ∧
        a.payload.length ≠ 4) :
    route_table_parse buf = none := by
  have hpol : nl_policy_parse buf.attrs = none := by
    rcases h with h | h
    · exact nl_policy_parse_go_no_oif buf.attrs h none
    · exact nl_policy_parse_go_bad_attr buf.attrs h none none
  simp [route_table_parse, hpol]

theorem c6_decode_fails_without_oif_witness :
    route_table_parse ⟨24, 2, 8, 0, 1, [⟨1, [10, 0, 0, 0]⟩]⟩ = none :=
  c6_decode_fails_without_oif ⟨24, 2, 8, 0, 1, [⟨1, [10, 0, 0, 0]⟩]⟩
    (Or.inl (by decide))

/-! ## Longest-prefix-match lemmas -/

/-- The prefix length tracked by the scan: -1 for no best node yet (the C
`dst_len` / `rn_ret` pair always moves in lock step). -/
def best_len : Option route_data → Int
  | none => -1
  | some rn => rn.rtm_dst_len

theorem lpm_candidate_iff (ip : Nat) (rd : route_data) :
    lpm_candidate ip rd = true ↔
      ¬(rd.rta_dst = 0 ∧ rd.rtm_dst_len = 0) ∧
        Nat.land ip (mask_of rd.rtm_dst_len) =
          Nat.land rd.rta_dst (mask_of rd.rtm_dst_len) := by
  simp [lpm_candidate]
  tauto

theorem lookup_by_ip_go_origin (ip : Nat) (l : List route_data) :
    ∀ (dst_len : Int) (best : Option route_data) (rn : route_data),
      route_node_lookup_by_ip_go ip l dst_len best = some rn →
      best = some rn ∨ (rn ∈ l ∧ lpm_candidate ip rn = true) := by
  induction l with
  | nil => intro dst_len best rn h; exact Or.inl h
  | cons rd rest ih =>
    intro dst_len best rn h
    simp only [route_node_lookup_by_ip_go] at h
    by_cases h1 : rd.rta_dst = 0 ∧ rd.rtm_dst_len = 0
    · rw [if_pos h1] at h
      rcases ih _ _ _ h with h' | ⟨hm, hc⟩
      · exact Or.inl h'
      · exact Or.inr ⟨List.mem_cons_of_mem rd hm, hc⟩
    · rw [if_neg h1] at h
      by_cases h2 : dst_len < (rd.rtm_dst_len : Int) ∧
          Nat.land ip (mask_of rd.rtm_dst_len) =
            Nat.land rd.rta_dst (mask_of rd.rtm_dst_len)
      · rw [if_pos h2] at h
        rcases ih _ _ _ h with h' | ⟨hm, hc⟩
        · have hrd : rd = rn := by injection h'
          subst hrd
          refine Or.inr ⟨List.mem_cons_self rd rest, ?_⟩
          exact (lpm_candidate_iff ip rd).mpr ⟨h1, h2.2⟩
        · exact Or.inr ⟨List.mem_cons_of_mem rd hm, hc⟩
      · rw [if_neg h2] at h
        rcases ih _ _ _ h with h' | ⟨hm, hc⟩
        · exact Or.inl h'
        · exact Or.inr ⟨List.mem_cons_of_mem rd hm, hc⟩

theorem lookup_by_ip_go_ge (ip : Nat) (l : List route_data) :
    ∀ best : Option route_data,
      best_len best ≤
        best_len (route_node_lookup_by_ip_go ip l (best_len best) best) := by
  induction l with
  | nil => intro best; exact le_refl _
  | cons rd rest ih =>
    intro best
    simp only [route_node_lookup_by_ip_go]
    by_cases h1 : rd.rta_dst = 0 ∧ rd.rtm_dst_len = 0
    · rw [if_pos h1]; exact ih best
    · rw [if_neg h1]
      by_cases h2 : best_len best < (rd.rtm_dst_len : Int) ∧
          Nat.land ip (mask_of rd.rtm_dst_len) =
            Nat.land rd.rta_dst (mask_of rd.rtm_dst_len)
      · rw [if_pos h2]
        exact le_trans (le_of_lt h2.1) (ih (some rd))
      · rw [if_neg h2]; exact ih best

theorem lookup_by_ip_go_max (ip : Nat) (l : List route_data) :
    ∀ (best : Option route_data) (e : route_data), e ∈ l →
      lpm_candidate ip e = true →
      (e.rtm_dst_len : Int) ≤
        best_len (route_node_lookup_by_ip_go ip l (best_len best) best) := by
  induction l with
  | nil => intro best e he; exact absurd he (List.not_mem_nil e)
  | cons rd rest ih =>
    intro best e he hc
    simp only [route_node_lookup_by_ip_go]
    rcases List.mem_cons.mp he with rfl | her
    · obtain ⟨h1, hmatch⟩ := (lpm_candidate_iff ip e).mp hc
      rw [if_neg h1]
      by_cases h2 : best_len best < (e.rtm_dst_len : Int)
      · rw [if_pos ⟨h2, hmatch⟩]
        exact lookup_by_ip_go_ge ip rest (some e)
      · push_neg at h2
        have hcond : ¬(best_len best < (e.rtm_dst_len : Int) ∧
            Nat.land ip (mask_of e.rtm_dst_len) =
              Nat.land e.rta_dst (mask_of e.rtm_dst_len)) :=
          fun hh => absurd hh.1 (not_lt_of_le h2)
        rw [if_neg hcond]
        exact le_trans h2 (lookup_by_ip_go_ge ip rest best)
    · by_cases h1 : rd.rta_dst = 0 ∧ rd.rtm_dst_len = 0
      · rw [if_pos h1]; exact ih best e her hc
      · rw [if_neg h1]
        by_cases h2 : best_len best < (rd.rtm_dst_len : Int) ∧
            Nat.land ip (mask_of rd.rtm_dst_len) =
              Nat.land rd.rta_dst (mask_of rd.rtm_dst_len)
        · rw [if_pos h2]; exact ih (some rd) e her hc
        · rw [if_neg h2]; exact ih best e her hc

theorem route_node_lookup_by_ip_spec (cache : List route_data) (ip : Nat)
    (e : route_data) (he : e ∈ cache) (hc : lpm_candidate ip e = true)
    (hmax : ∀ e' ∈ cache, lpm_candidate ip e' = true →
      e' = e ∨ e'.rtm_dst_len < e.rtm_dst_len) :
    route_node_lookup_by_ip cache ip = some e := by
  have hge := lookup_by_ip_go_max ip cache none e he hc
  simp only [best_len] at hge
  cases hres : route_node_lookup_by_ip_go ip cache (-1) none with
  | none =>
    rw [hres] at hge
    simp only [best_len] at hge
    omega
  | some rn =>
    rcases lookup_by_ip_go_origin ip cache (-1) none rn hres with h' | ⟨hm, hc'⟩
    · exact absurd h' (by simp)
    · rcases hmax rn hm hc' with rfl | hlt
      · exact hres
      · rw [hres] at hge
        simp only [best_len] at hge
        omega

/-! ## C1: longest-prefix-match selection -/

/-- C1: on the cache {10.0.0.0/8 to interface 1, 10.1.0.0/16 to interface 2,
default to interface 3}, resolving 10.1.2.3 yields interface 2, 10.2.3.4
yields interface 1, and 192.168.1.1 yields interface 3 (the resolver takes
its address in network byte order, hence the `ntohl`); in general, whenever
a candidate entry (non-default, masked prefix containing the address) has a
strictly greater prefix length than every other candidate in the cache, the
scan selects exactly that entry. -/
theorem c1_longest_prefix_selected :
    (route_table_get_ifindex demo_cache (ntohl 0x0a010203) = (true, 2) ∧
      route_table_get_ifindex demo_cache (ntohl 0x0a020304) = (true, 1) ∧
      route_table_get_ifindex demo_cache (ntohl 0xc0a80101) = (true, 3)) ∧
    ∀ (cache : List route_data) (ip : Nat) (e : route_data),
      e ∈ cache → lpm_candidate ip e = true →
      (∀ e' ∈ cache, lpm_candidate ip e' = true →
        e' = e ∨ e'.rtm_dst_len < e.rtm_dst_len) →
      route_node_lookup_by_ip cache ip = some e :=
  ⟨by decide, route_node_lookup_by_ip_spec⟩

theorem c1_longest_prefix_selected_witness :
    route_node_lookup_by_ip demo_cache 0x0a010203 =
      some ⟨16, 0x0a010000, 2⟩ :=
  c1_longest_prefix_selected.2 demo_cache 0x0a010203 ⟨16, 0x0a010000, 2⟩
    (by decide) (by decide) (by decide)

/-! ## C2: which zero-length prefixes the scan excludes -/

/-- C2 counterexample: a cache entry with `prefix_len = 0` but nonzero
destination 10.0.0.0 is NOT excluded from the candidate scan: resolving
10.0.0.0 against a cache holding only that entry selects it as the specific
match, contradicting the claim that such entries are never selected. -/
theorem c2_counterexample :
    route_node_lookup_by_ip [⟨0, 0x0a000000, 5⟩] 0x0a000000 =
      some ⟨0, 0x0a000000, 5⟩ := by decide

/-- C2 amended: the scan of `route_node_lookup_by_ip` excludes an entry only
when it is a true default route, i.e. both `rta_dst = 0` and
`rtm_dst_len = 0`; consequently any entry the scan returns is in the cache
and is not such a default, while a `prefix_len = 0` entry with nonzero
destination stays in the scan and can be selected. -/
theorem c2_only_true_default_excluded (cache : List route_data) (ip : Nat)
    (rn : route_data) (h : route_node_lookup_by_ip cache ip = some rn) :
    rn ∈ cache ∧ ¬(rn.rta_dst = 0 ∧ rn.rtm_dst_len = 0) := by
  rcases lookup_by_ip_go_origin ip cache (-1) none rn h with h' | ⟨hm, hc⟩
  · exact absurd h' (by simp)
  · exact ⟨hm, ((lpm_candidate_iff ip rn).mp hc).1⟩

theorem c2_only_true_default_excluded_witness :
    (⟨0, 0x0a000000, 5⟩ : route_data) ∈ [(⟨0, 0x0a000000, 5⟩ : route_data)] ∧
      ¬((⟨0, 0x0a000000, 5⟩ : route_data).rta_dst = 0 ∧
        (⟨0, 0x0a000000, 5⟩ : route_data).rtm_dst_len = 0) :=
  c2_only_true_default_excluded [⟨0, 0x0a000000, 5⟩] 0x0a000000
    ⟨0, 0x0a000000, 5⟩ (by decide)

/-! ## C9: null change triggers a full resync -/

theorem mem_foldl_reset_step (msgs : List raw_msg)
    (hnew : ∀ buf ∈ msgs, ∀ m, route_table_parse buf = some m →
      m.nlmsg_type = RTM_NEWROUTE) :
    ∀ (acc : List route_data) (rd : route_data),
      rd ∈ msgs.foldl reset_step acc ↔
        rd ∈ acc ∨ rd ∈ relevant_decoded msgs := by
  induction msgs with
  | nil => intro acc rd; simp [relevant_decoded]
  | cons buf rest ih =>
    intro acc rd
    have hrest : ∀ b ∈ rest, ∀ m, route_table_parse b = some m →
        m.nlmsg_type = RTM_NEWROUTE :=
      fun b hb => hnew b (List.mem_cons_of_mem buf hb)
    rw [List.foldl_cons, ih hrest]
    cases hp : route_table_parse buf with
    | none =>
      simp [reset_step, hp, relevant_decoded, List.filterMap_cons]
    | some m =>
      cases hrelb : m.relevant with
      | false =>
        have happ : reset_step acc buf = acc := by
          simp [reset_step, hp, route_table_change_apply, hrelb]
        rw [happ]
        simp [relevant_decoded, List.filterMap_cons, hp, hrelb]
      | true =>
        have hty := hnew buf (List.mem_cons_self buf rest) m hp
        have hstep : reset_step acc buf = route_table_change_apply m acc := by
          simp [reset_step, hp]
        rw [hstep]
        have hmem := mem_route_table_change_apply_new m acc hrelb hty
        simp only [relevant_decoded, List.filterMap_cons, hp, hrelb,
          List.mem_cons] at *
        rw [hmem rd]
        simp [relevant_decoded]
        tauto

/-- C9: applying a null change triggers one full resync — the cache after
`route_table_change` on a missing message is exactly the cache one
`route_table_reset` produces — and afterwards the cache holds exactly the
relevant routes successfully decoded from the external source's dump
(provided the transport is available and the dump consists of new-route
messages, as a kernel route dump does). -/
theorem c9_null_change_resyncs (env : netlink_env)
    (cache : List route_data) (hsock : env.sock_error = 0)
    (hnew : ∀ buf ∈ env.dump_msgs, ∀ m, route_table_parse buf = some m →
      m.nlmsg_type = RTM_NEWROUTE) :
    route_table_change env none cache = (route_table_reset env cache).2 ∧
      ∀ rd, rd ∈ route_table_change env none cache ↔
        rd ∈ relevant_decoded env.dump_msgs := by
  constructor
  · rfl
  · intro rd
    show rd ∈ (route_table_reset env cache).2 ↔ _
    simp only [route_table_reset, hsock]
    norm_num
    rw [mem_foldl_reset_step env.dump_msgs hnew [] rd]
    simp

theorem c9_null_change_resyncs_witness :
    (route_table_change ⟨0, [⟨24, 2, 8, 0, 1, [⟨4, [7, 0, 0, 0]⟩,
          ⟨1, [10, 0, 0, 0]⟩]⟩, ⟨24, 2, 8, 255, 1, [⟨4, [9, 0, 0, 0]⟩]⟩], 0⟩
        none [⟨32, 1, 9⟩] =
      (route_table_reset ⟨0, [⟨24, 2, 8, 0, 1, [⟨4, [7, 0, 0, 0]⟩,
          ⟨1, [10, 0, 0, 0]⟩]⟩, ⟨24, 2, 8, 255, 1, [⟨4, [9, 0, 0, 0]⟩]⟩], 0⟩
        [⟨32, 1, 9⟩]).2) ∧
      ((⟨8, 0x0a000000, 7⟩ : route_data) ∈
          route_table_change ⟨0, [⟨24, 2, 8, 0, 1, [⟨4, [7, 0, 0, 0]⟩,
            ⟨1, [10, 0, 0, 0]⟩]⟩, ⟨24, 2, 8, 255, 1, [⟨4, [9, 0, 0, 0]⟩]⟩], 0⟩
            none [⟨32, 1, 9⟩] ↔
        (⟨8, 0x0a000000, 7⟩ : route_data) ∈
          relevant_decoded [⟨24, 2, 8, 0, 1, [⟨4, [7, 0, 0, 0]⟩,
            ⟨1, [10, 0, 0, 0]⟩]⟩, ⟨24, 2, 8, 255, 1, [⟨4, [9, 0, 0, 0]⟩]⟩]) :=
  ⟨(c9_null_change_resyncs ⟨0, [⟨24, 2, 8, 0, 1, [⟨4, [7, 0, 0, 0]⟩,
      ⟨1, [10, 0, 0, 0]⟩]⟩, ⟨24, 2, 8, 255, 1, [⟨4, [9, 0, 0, 0]⟩]⟩], 0⟩
      [⟨32, 1, 9⟩] rfl (by decide)).1,
    (c9_null_change_resyncs ⟨0, [⟨24, 2, 8, 0, 1, [⟨4, [7, 0, 0, 0]⟩,
      ⟨1, [10, 0, 0, 0]⟩]⟩, ⟨24, 2, 8, 255, 1, [⟨4, [9, 0, 0, 0]⟩]⟩], 0⟩
      [⟨32, 1, 9⟩] rfl (by decide)).2 ⟨8, 0x0a000000, 7⟩⟩


/-! ## C7: reference-counted registration -/

/-- C7: starting from the unregistered initial state, two `register` calls
followed by one `unregister` return the subsystem to exactly the state after
the first `register` — transport and cache still in place (`rtn = true`) —
and only the matching second `unregister` tears it down: the transport is
destroyed, the cache is cleared, and `route_table_get_ifindex` then reports
no route for every address. -/
theorem c7_reference_counting (env : netlink_env) :
    (route_table_unregister
        (route_table_register env (route_table_register env initial_state)) =
      route_table_register env initial_state) ∧
    (route_table_unregister
        (route_table_register env
          (route_table_register env initial_state))).rtn = true ∧
    (route_table_unregister (route_table_unregister
        (route_table_register env
          (route_table_register env initial_state)))).rtn = false ∧
    (route_table_unregister (route_table_unregister
        (route_table_register env
          (route_table_register env initial_state)))).route_map = [] ∧
    ∀ ip_be : Nat,
      (route_table_get_ifindex
        (route_table_unregister (route_table_unregister
          (route_table_register env
            (route_table_register env initial_state)))).route_map
        ip_be).1 = false := by
  have h1 : route_table_register env initial_state =
      ⟨1, true, (route_table_reset env []).2⟩ := by
    simp [route_table_register, initial_state]
  have h2 : route_table_register env
      ⟨1, true, (route_table_reset env []).2⟩ =
      ⟨2, true, (route_table_reset env []).2⟩ := by
    simp [route_table_register]
  have h3 : route_table_unregister ⟨2, true, (route_table_reset env []).2⟩ =
      ⟨1, true, (route_table_reset env []).2⟩ := by
    simp [route_table_unregister]
  have h4 : route_table_unregister ⟨1, true, (route_table_reset env []).2⟩ =
      ⟨0, false, []⟩ := by
    simp [route_table_unregister]
  rw [h1, h2, h3, h4]
  exact ⟨rfl, rfl, rfl, rfl, fun ip_be => rfl⟩
